import Mathlib

/-!
Verification of the panel module of `electron-panel` (`lib/main.js`).

The module keeps a registry `_winID2panelIDs` mapping a `BrowserWindow` id to
the ordered array of panel ids hosted by that window, and routes messages from
the main process to the renderer process hosting a given panel.

We embed the registry as an association list from window id (`Nat`, the
numeric `BrowserWindow.id`) to the ordered list of panel ids (`String`).
A JavaScript object has unique keys; the embedding only ever adds a key that
is absent, so key uniqueness is preserved by construction, and `delete` of a
key is embedded as filtering that key out.
-/

namespace ElectronPanel

abbrev WinID := Nat
abbrev PanelID := String

/-- The state of `_winID2panelIDs`: window id to its ordered panel ids. -/
abbrev Registry := List (WinID × List PanelID)

/-- `panel.findWindow(panelID)` (main.js:24-33): scan the registry entries and
return the id of the first window whose panel list contains `panelID`, else
null.  (The JS returns `BrowserWindow.fromId(winID)`; we return the id.) -/
def findWindow : Registry → PanelID → Option WinID
  | [], _ => none
  | e :: rest, p => if p ∈ e.2 then some e.1 else findWindow rest p

/-- `panel.getPanels(win)` / `_winID2panelIDs[winID]` lookup: the panel list
stored under window id `w`, or `undefined` (none). -/
def lookupWin : Registry → WinID → Option (List PanelID)
  | [], _ => none
  | e :: rest, w => if e.1 = w then some e.2 else lookupWin rest w

/-- `_winID2panelIDs[winID].push(panelID)` on an existing entry: append `p`
to the panel list of the (unique) entry keyed `w`, leaving others alone. -/
def updateEntry : Registry → WinID → PanelID → Registry
  | [], _, _ => []
  | e :: rest, w, p =>
    if e.1 = w then (e.1, e.2 ++ [p]) :: rest else e :: updateEntry rest w p

/-- `panelIDs.splice(panelIDs.indexOf(panelID), 1)`: in the entry keyed `w`,
erase the first occurrence of `p`. -/
def eraseInEntry : Registry → WinID → PanelID → Registry
  | [], _, _ => []
  | e :: rest, w, p =>
    if e.1 = w then (e.1, e.2.erase p) :: rest else e :: eraseInEntry rest w p

/-- `delete _winID2panelIDs[winID]`: drop the entry keyed `w`.  (A JS object
has unique keys, so dropping every entry keyed `w` is the same deletion.) -/
def eraseWin : Registry → WinID → Registry
  | [], _ => []
  | e :: rest, w => if e.1 = w then eraseWin rest w else e :: eraseWin rest w

/-- The error conditions logged by the registry control-message handlers. -/
inductive RegError where
  | duplicatePanel (win : WinID)
  | windowNotFound
  | panelNotFound
deriving DecidableEq, Repr

/-- The `'electron-panel:add'` handler (main.js:191-209), with the sending
window resolved to `w`: if `findWindow(panelID)` finds a window, log the
conflict and abort; otherwise append `panelID` to `w`'s list, creating the
entry if absent.  Returns the new registry and the error, if any. -/
def addPanel (reg : Registry) (w : WinID) (p : PanelID) :
    Registry × Option RegError :=
  match findWindow reg p with
  | some w' => (reg, some (.duplicatePanel w'))
  | none =>
    match lookupWin reg w with
    | some _ => (updateEntry reg w p, none)
    | none => (reg ++ [(w, [p])], none)

/-- The `'electron-panel:remove'` handler (main.js:211-230), with the sending
window resolved to `w`: window-not-found if `w` has no entry, panel-not-found
if the entry lacks `p`, otherwise splice out the first occurrence of `p`. -/
def removePanel (reg : Registry) (w : WinID) (p : PanelID) :
    Registry × Option RegError :=
  match lookupWin reg w with
  | none => (reg, some .windowNotFound)
  | some ps =>
    if p ∈ ps then (eraseInEntry reg w p, none)
    else (reg, some .panelNotFound)

/-- The `'electron-panel:clear'` handler (main.js:232-243), with the sending
window resolved to `w`: window-not-found if `w` has no entry, otherwise
delete the whole entry. -/
def clearPanels (reg : Registry) (w : WinID) : Registry × Option RegError :=
  match lookupWin reg w with
  | none => (reg, some .windowNotFound)
  | some _ => (eraseWin reg w, none)

/-- The `'closed'` observer installed on `'browser-window-created'`
(main.js:175-181): unconditionally `delete _winID2panelIDs[winID]`. -/
def onWindowClosed (reg : Registry) (w : WinID) : Registry :=
  eraseWin reg w

/-- One control operation on the registry. -/
inductive Op where
  | add (w : WinID) (p : PanelID)
  | remove (w : WinID) (p : PanelID)
  | clear (w : WinID)
  | closed (w : WinID)
deriving DecidableEq, Repr

/-- Apply one operation; a handler that logs an error aborts with the
registry unchanged (the `.1` projection already is the unchanged registry). -/
def applyOp (reg : Registry) : Op → Registry
  | .add w p => (addPanel reg w p).1
  | .remove w p => (removePanel reg w p).1
  | .clear w => (clearPanels reg w).1
  | .closed w => onWindowClosed reg w

/-- Run a sequence of operations from a starting registry. -/
def runOps (reg : Registry) (ops : List Op) : Registry :=
  ops.foldl applyOp reg

/-- Total number of times panel id `p` occurs across all entries. -/
def panelCount : Registry → PanelID → Nat
  | [], _ => 0
  | e :: rest, p => e.2.count p + panelCount rest p

/-- The registry uniqueness invariant: every panel id occurs at most once in
total, hence in at most one window's list and at most once there. -/
def Uniq (reg : Registry) : Prop := ∀ p : PanelID, panelCount reg p ≤ 1

/-! ## The message dispatcher (`panel.send`, `_sendToPanel`, `_renderer2panelOpts`)

JavaScript runtime values that flow through the variadic argument lists are
embedded as `JVal`.  Functions (reply callbacks) and other opaque objects are
identified by a numeric tag; an `electron-ipc-plus` option object is embedded
by its three fields used in this module. -/

/-- A JavaScript value appearing in a message argument list.  `errNoPanel`
embeds the `ErrorNoPanel` object from `lib/common.js`. -/
inductive JVal where
  | str (s : String)
  | num (n : Int)
  | fn (f : Nat)
  | opt (sessionId : Option Nat) (waitForReply : Bool) (timeout : Option Int)
  | errNoPanel (panelID : String) (message : JVal)
  | other (tag : Nat)
deriving DecidableEq, Repr

/-- `typeof v === 'string'`. -/
def JVal.isStr : JVal → Bool
  | .str _ => true
  | _ => false

/-- Modelled from the spec: `ErrorNoPanel` comes from `lib/common.js`, which
is not under `src/`.  Per §6 the error payload delivered to reply callbacks
on routing failure is "an object identifying the error kind 'no such panel',
carrying panelID and messageName"; we embed it as a value carrying exactly
those two fields. -/
def errorNoPanel (panelID : String) (message : JVal) : JVal :=
  .errNoPanel panelID message

/-- The pair extracted by `ipcPlus.internal._popReplyAndTimeout`: the reply
callback and the timeout (defaulted to 5000 ms, per the doc comment on
`panel.send` in main.js). -/
structure ReplyTimeout where
  reply : Nat
  timeout : Int
deriving DecidableEq, Repr

/-- Modelled from the spec: `_popReplyAndTimeout` belongs to the external
collaborator `electron-ipc-plus` (§6).  Per §4.2 the reply callback and
timeout "are detected positionally (last or second-to-last argument)": a
trailing number preceded by a function yields both (popping the two), a
trailing function alone yields the callback with the 5000 ms default
(popping one); otherwise nothing is extracted and the list is unchanged. -/
def popReplyAndTimeout (args : List JVal) : Option ReplyTimeout × List JVal :=
  match args.getLast? with
  | some (.num t) =>
    match args.dropLast.getLast? with
    | some (.fn f) => (some ⟨f, t⟩, args.dropLast.dropLast)
    | _ => (none, args)
  | some (.fn f) => (some ⟨f, 5000⟩, args.dropLast)
  | _ => (none, args)

/-- An `electron-ipc-plus` option record as used by this module. -/
structure IpcOpt where
  sessionId : Option Nat
  waitForReply : Bool
  timeout : Option Int
deriving DecidableEq, Repr

/-- Modelled from the spec: `_popOptions` belongs to the external
collaborator `electron-ipc-plus` (§6); it extracts a trailing ipc option
object from a variadic argument list, popping it off, and otherwise leaves
the list unchanged. -/
def popOptions (args : List JVal) : Option IpcOpt × List JVal :=
  match args.getLast? with
  | some (.opt sid wfr t) => (some ⟨sid, wfr, t⟩, args.dropLast)
  | _ => (none, args)

/-- Modelled from the spec: `ipcPlus.id` is the module identifier of the
external collaborator; only its use as a channel-name prefix matters here. -/
def ipcPlusID : String := "electron-ipc-plus"

/-- The channel `ipcPlus.id + ":main2panel"` used by `_sendToPanel`. -/
def main2panelChannel : String := ipcPlusID ++ ":main2panel"

/-- The channel `ipcPlus.id + ":reply"` used by the relay's reply closure. -/
def replyChannel : String := ipcPlusID ++ ":reply"

/-- The destination of a transmitted message: a window's web contents
(`win.webContents.send`) or a renderer sender handle (`sender.send`). -/
inductive Dest where
  | win (w : WinID)
  | sender (s : Nat)
deriving DecidableEq, Repr

/-- One message handed to the transport. -/
structure Msg where
  dest : Dest
  channel : String
  payload : List JVal
deriving DecidableEq, Repr

/-- The reply callback stored in a session: either a user-supplied callback
(`opts.reply` in `_sendToPanel`) or the forwarding closure built in
`_renderer2panelOpts`, which captures the sender handle and the original
caller's session id. -/
inductive ReplyFn where
  | cb (f : Nat)
  | forward (sender : Nat) (origSessionId : Option Nat)
deriving DecidableEq, Repr

/-- A session record handed to `_newSession` (the Session Tracker, §6):
message name, owner tag, reply callback and timeout.  The id is the fresh
session id the tracker returns. -/
structure Session where
  id : Nat
  message : JVal
  owner : String
  reply : ReplyFn
  timeout : Option Int
deriving DecidableEq, Repr

/-- A diagnostic logged with `console.error` by the dispatcher. -/
inductive LogMsg where
  | mustBeString (panelID : String) (message : JVal)
deriving DecidableEq, Repr

/-- The observable effect of one dispatcher call: messages handed to the
transport, synchronous invocations of user callbacks (`calls` records the
callback tag and its argument list), sessions opened via `_newSession`,
diagnostics logged, and the return value (a session id or `undefined`).
Fresh session ids are drawn from the `nextSid` counter the caller passes.
The transport's boolean result on the one-way path (whose falsity is merely
logged in main.js:113-115) is not modelled; no claim concerns it. -/
structure Effect where
  msgs : List Msg
  calls : List (Nat × List JVal)
  sessions : List Session
  logs : List LogMsg
  ret : Option Nat
deriving DecidableEq, Repr

/-- The effect of a call that does nothing observable. -/
def Effect.empty : Effect := ⟨[], [], [], [], none⟩

/-- `_sendToPanel(win, panelID, message, ...args)` (main.js:104-130): reject
non-string messages with a log; otherwise pop a reply callback/timeout; with
none, transmit one-way; with one, open a session owned by `panelID + "@main"`
and transmit the message with the session id and wait-for-reply flag
appended as an ipc option, returning the session id. -/
def sendToPanel (w : WinID) (panelID : String) (message : JVal)
    (args : List JVal) (nextSid : Nat) : Effect :=
  if message.isStr = false then
    { Effect.empty with logs := [.mustBeString panelID message] }
  else
    match popReplyAndTimeout args with
    | (none, rest) =>
      { Effect.empty with
        msgs := [⟨.win w, main2panelChannel, .str panelID :: message :: rest⟩] }
    | (some rt, rest) =>
      { msgs := [⟨.win w, main2panelChannel,
          .str panelID :: message ::
            (rest ++ [.opt (some nextSid) true (some rt.timeout)])⟩],
        calls := [],
        sessions := [⟨nextSid, message, panelID ++ "@main", .cb rt.reply,
          some rt.timeout⟩],
        logs := [],
        ret := some nextSid }

/-- `panel.send(panelID, message, ...args)` (main.js:86-98): look up the
owning window first; with no owner, pop a reply callback and, if present,
invoke it synchronously with `ErrorNoPanel`; with an owner, defer to
`_sendToPanel`. -/
def send (reg : Registry) (panelID : String) (message : JVal)
    (args : List JVal) (nextSid : Nat) : Effect :=
  match findWindow reg panelID with
  | none =>
    match popReplyAndTimeout args with
    | (some rt, _) =>
      { Effect.empty with calls := [(rt.reply, [errorNoPanel panelID message])] }
    | (none, _) => Effect.empty
  | some w => sendToPanel w panelID message args nextSid

/-- `_renderer2panelOpts(event, panelID, message, ...args)` (main.js:132-169),
with the sender handle embedded as a tag: with no extra arguments, a plain
`panel.send`; with a trailing wait-for-reply option, open a session at this
process whose reply callback forwards to the captured sender tagged with the
*original* session id, and re-send with a fresh option carrying the *new*
session id; otherwise forward as a plain send. -/
def renderer2panelOpts (reg : Registry) (sender : Nat) (panelID : String)
    (message : JVal) (args : List JVal) (nextSid : Nat) : Effect :=
  if args.isEmpty then
    send reg panelID message [] nextSid
  else
    match popOptions args with
    | (some o, rest) =>
      if o.waitForReply then
        let sess : Session :=
          ⟨nextSid, message, panelID ++ "@main", .forward sender o.sessionId,
            o.timeout⟩
        let inner := send reg panelID message
          (rest ++ [.opt (some nextSid) true o.timeout]) (nextSid + 1)
        { inner with sessions := sess :: inner.sessions }
      else
        send reg panelID message rest nextSid
    | (none, rest) => send reg panelID message rest nextSid

/-- Modelled from the spec: the Session Tracker (§6) "invokes replyCallback
exactly once with either successful reply arguments or a timeout error".
`runReplyFn alive r replyArgs` is the effect of that one invocation on a
stored reply callback `r`: a user callback is called with the arguments; the
relay's forwarding closure (main.js:144-155) checks `sender.isDestroyed()`
(the `alive` predicate) and, when alive, sends the reply arguments on the
reply channel with an option carrying the original session id, else drops
the reply. -/
def runReplyFn (alive : Nat → Bool) (r : ReplyFn) (replyArgs : List JVal) :
    List Msg × List (Nat × List JVal) :=
  match r with
  | .cb f => ([], [(f, replyArgs)])
  | .forward sender origSid =>
    if alive sender then
      ([⟨.sender sender, replyChannel,
        replyArgs ++ [.opt origSid false none]⟩], [])
    else ([], [])

/-! ## Registry lemmas -/

theorem panelCount_append (r1 r2 : Registry) (q : PanelID) :
    panelCount (r1 ++ r2) q = panelCount r1 q + panelCount r2 q := by
  induction r1 with
  | nil => simp [panelCount]
  | cons e rest ih => simp [panelCount, ih]; omega

theorem findWindow_eq_none_iff {reg : Registry} {p : PanelID} :
    findWindow reg p = none ↔ panelCount reg p = 0 := by
  induction reg with
  | nil => simp [findWindow, panelCount]
  | cons e rest ih =>
    by_cases h : p ∈ e.2
    · have hc : e.2.count p ≠ 0 := by
        simpa [List.count_eq_zero] using h
      simp [findWindow, panelCount, h]
      omega
    · have hc : e.2.count p = 0 := List.count_eq_zero.mpr h
      simp [findWindow, panelCount, h, hc, ih]

theorem panelCount_updateEntry_le (reg : Registry) (w : WinID) (p q : PanelID) :
    panelCount (updateEntry reg w p) q ≤
      panelCount reg q + (if p = q then 1 else 0) := by
  induction reg with
  | nil => simp [updateEntry, panelCount]
  | cons e rest ih =>
    by_cases h : e.1 = w
    · simp [updateEntry, h, panelCount, List.count_append,
        List.count_singleton']
      omega
    · simp [updateEntry, h, panelCount]
      omega

theorem panelCount_eraseInEntry_le (reg : Registry) (w : WinID)
    (p q : PanelID) : panelCount (eraseInEntry reg w p) q ≤ panelCount reg q := by
  induction reg with
  | nil => simp [eraseInEntry]
  | cons e rest ih =>
    by_cases h : e.1 = w
    · have := (List.erase_sublist p e.2).count_le q
      simp [eraseInEntry, h, panelCount]
      omega
    · simp [eraseInEntry, h, panelCount]
      omega

theorem panelCount_eraseWin_le (reg : Registry) (w : WinID) (q : PanelID) :
    panelCount (eraseWin reg w) q ≤ panelCount reg q := by
  induction reg with
  | nil => simp [eraseWin]
  | cons e rest ih =>
    by_cases h : e.1 = w <;> simp [eraseWin, h, panelCount] <;> omega

theorem uniq_addPanel {reg : Registry} (h : Uniq reg) (w : WinID)
    (p : PanelID) : Uniq (addPanel reg w p).1 := by
  intro q
  cases hf : findWindow reg p with
  | some w' => simpa [addPanel, hf] using h q
  | none =>
    have hp0 : panelCount reg p = 0 := findWindow_eq_none_iff.mp hf
    cases hl : lookupWin reg w with
    | some ps =>
      have hle := panelCount_updateEntry_le reg w p q
      have hq := h q
      simp only [addPanel, hf, hl]
      by_cases hpq : p = q
      · subst hpq; rw [if_pos rfl] at hle; omega
      · rw [if_neg hpq] at hle; omega
    | none =>
      have hq := h q
      simp only [addPanel, hf, hl, panelCount_append]
      by_cases hpq : p = q
      · subst hpq
        simp [panelCount, List.count_singleton]
        omega
      · simp [panelCount, List.count_singleton', hpq]
        omega

theorem uniq_removePanel {reg : Registry} (h : Uniq reg) (w : WinID)
    (p : PanelID) : Uniq (removePanel reg w p).1 := by
  intro q
  cases hl : lookupWin reg w with
  | none => simpa [removePanel, hl] using h q
  | some ps =>
    by_cases hp : p ∈ ps
    · have := panelCount_eraseInEntry_le reg w p q
      have := h q
      simp only [removePanel, hl, if_pos hp]
      omega
    · simpa [removePanel, hl, hp] using h q

theorem uniq_clearPanels {reg : Registry} (h : Uniq reg) (w : WinID) :
    Uniq (clearPanels reg w).1 := by
  intro q
  cases hl : lookupWin reg w with
  | none => simpa [clearPanels, hl] using h q
  | some ps =>
    have := panelCount_eraseWin_le reg w q
    have := h q
    simp only [clearPanels, hl]
    omega

theorem uniq_onWindowClosed {reg : Registry} (h : Uniq reg) (w : WinID) :
    Uniq (onWindowClosed reg w) := by
  intro q
  have := panelCount_eraseWin_le reg w q
  have := h q
  simp only [onWindowClosed]
  omega

theorem uniq_applyOp {reg : Registry} (h : Uniq reg) (op : Op) :
    Uniq (applyOp reg op) := by
  cases op with
  | add w p => exact uniq_addPanel h w p
  | remove w p => exact uniq_removePanel h w p
  | clear w => exact uniq_clearPanels h w
  | closed w => exact uniq_onWindowClosed h w

theorem uniq_runOps {reg : Registry} (h : Uniq reg) (ops : List Op) :
    Uniq (runOps reg ops) := by
  induction ops generalizing reg with
  | nil => exact h
  | cons op rest ih => exact ih (uniq_applyOp h op)

/-- C1: starting from the empty registry, after any sequence of add-panel,
remove-panel, clear-panels and window-closed operations, every panel id
occurs at most once in total across the registry — hence it appears in at
most one window's panel sequence, and at most once in that sequence.  Every
intermediate point of a sequence is itself the result of a (prefix)
sequence, so this covers every point of every run. -/
theorem panel_uniqueness_invariant (ops : List Op) : Uniq (runOps [] ops) :=
  uniq_runOps (fun p => by simp [panelCount]) ops

theorem lookupWin_updateEntry_self {reg : Registry} {w : WinID}
    {ps : List PanelID} (h : lookupWin reg w = some ps) (p : PanelID) :
    lookupWin (updateEntry reg w p) w = some (ps ++ [p]) := by
  induction reg with
  | nil => simp [lookupWin] at h
  | cons e rest ih =>
    by_cases he : e.1 = w
    · simp [lookupWin, he] at h
      simp [updateEntry, lookupWin, he, h]
    · simp [lookupWin, he] at h
      simp [updateEntry, lookupWin, he, ih h]

theorem lookupWin_append_none {reg : Registry} {w : WinID}
    (h : lookupWin reg w = none) (r2 : Registry) :
    lookupWin (reg ++ r2) w = lookupWin r2 w := by
  induction reg with
  | nil => simp
  | cons e rest ih =>
    by_cases he : e.1 = w
    · simp [lookupWin, he] at h
    · simp [lookupWin, he] at h ⊢
      exact ih h

theorem findWindow_append_none {reg : Registry} {p : PanelID}
    (h : findWindow reg p = none) (r2 : Registry) :
    findWindow (reg ++ r2) p = findWindow r2 p := by
  induction reg with
  | nil => simp
  | cons e rest ih =>
    by_cases he : p ∈ e.2
    · simp [findWindow, he] at h
    · simp [findWindow, he] at h ⊢
      exact ih h

theorem findWindow_updateEntry_self {reg : Registry} {w : WinID}
    {p : PanelID} {ps : List PanelID} (hf : findWindow reg p = none)
    (hl : lookupWin reg w = some ps) :
    findWindow (updateEntry reg w p) p = some w := by
  induction reg with
  | nil => simp [lookupWin] at hl
  | cons e rest ih =>
    by_cases he : p ∈ e.2
    · simp [findWindow, he] at hf
    · simp [findWindow, he] at hf
      by_cases hw : e.1 = w
      · subst hw
        simp [updateEntry, findWindow]
      · simp [lookupWin, hw] at hl
        simp [updateEntry, hw, findWindow, he, ih hf hl]

/-- C5: `addPanel(w, p)` with `p` already located in some window `w'`
(including `w` itself) fails with the DuplicatePanel condition naming `w'`
and leaves the registry unchanged; otherwise it succeeds, `w`'s sequence
afterwards is its previous sequence (empty if the entry was absent) with `p`
appended, and `locateWindow(p)` immediately afterwards returns `w`.  The
final conjunct is the spec's scenario: a second add of `"panelA"` from
window 2 fails with DuplicatePanel naming window 1, and window 2 has no
entry. -/
theorem addPanel_spec (reg : Registry) (w : WinID) (p : PanelID) :
    (∀ w', findWindow reg p = some w' →
      addPanel reg w p = (reg, some (.duplicatePanel w'))) ∧
    (findWindow reg p = none →
      (addPanel reg w p).2 = none ∧
      lookupWin (addPanel reg w p).1 w =
        some ((lookupWin reg w).getD [] ++ [p]) ∧
      findWindow (addPanel reg w p).1 p = some w) ∧
    (addPanel (addPanel [] 1 "panelA").1 2 "panelA" =
        ((addPanel [] 1 "panelA").1, some (.duplicatePanel 1)) ∧
      lookupWin (addPanel (addPanel [] 1 "panelA").1 2 "panelA").1 2 = none) := by
  refine ⟨fun w' h => by simp [addPanel, h], fun h => ?_, by decide⟩
  cases hl : lookupWin reg w with
  | some ps =>
    refine ⟨by simp [addPanel, h, hl], ?_, ?_⟩
    · simp only [addPanel, h, hl]
      simp [lookupWin_updateEntry_self hl p]
    · simp only [addPanel, h, hl]
      exact findWindow_updateEntry_self h hl
  | none =>
    refine ⟨by simp [addPanel, h, hl], ?_, ?_⟩
    · simp only [addPanel, h, hl]
      simp [lookupWin_append_none hl, lookupWin]
    · simp only [addPanel, h, hl]
      simp [findWindow_append_none h, findWindow]

/-- Witness for C5 at concrete inputs: a duplicate add fails naming the
owning window, and a fresh add appends and is found by `locateWindow`. -/
theorem addPanel_spec_witness :
    (addPanel [(1, ["a"])] 2 "a" = ([(1, ["a"])], some (.duplicatePanel 1))) ∧
    ((addPanel [(1, ["a"])] 2 "b").2 = none ∧
      lookupWin (addPanel [(1, ["a"])] 2 "b").1 2 =
        some ((lookupWin [(1, ["a"])] 2).getD [] ++ ["b"]) ∧
      findWindow (addPanel [(1, ["a"])] 2 "b").1 "b" = some 2) :=
  ⟨(addPanel_spec [(1, ["a"])] 2 "a").1 1 (by decide),
    (addPanel_spec [(1, ["a"])] 2 "b").2.1 (by decide)⟩

theorem lookupWin_eraseInEntry_self {reg : Registry} {w : WinID}
    {ps : List PanelID} (h : lookupWin reg w = some ps) (p : PanelID) :
    lookupWin (eraseInEntry reg w p) w = some (ps.erase p) := by
  induction reg with
  | nil => simp [lookupWin] at h
  | cons e rest ih =>
    by_cases he : e.1 = w
    · simp [lookupWin, he] at h
      simp [eraseInEntry, lookupWin, he, h]
    · simp [lookupWin, he] at h
      simp [eraseInEntry, lookupWin, he, ih h]

theorem lookupWin_eraseInEntry_other {reg : Registry} {w w' : WinID}
    (h : w' ≠ w) (p : PanelID) :
    lookupWin (eraseInEntry reg w p) w' = lookupWin reg w' := by
  induction reg with
  | nil => simp [eraseInEntry]
  | cons e rest ih =>
    by_cases he : e.1 = w
    · have hne : e.1 ≠ w' := fun hh => h (hh ▸ he ▸ rfl)
      simp [eraseInEntry, he, lookupWin, hne, Ne.symm h]
    · by_cases he' : e.1 = w'
      · simp [eraseInEntry, he, lookupWin, he', h]
      · simp [eraseInEntry, he, lookupWin, he', ih]

theorem exists_first_split {ps : List PanelID} {p : PanelID}
    (hm : p ∈ ps) (hc : ps.count p ≤ 1) :
    ∃ l1 l2, ps = l1 ++ p :: l2 ∧ p ∉ l1 ∧ p ∉ l2 ∧ ps.erase p = l1 ++ l2 := by
  induction ps with
  | nil => cases hm
  | cons a l ih =>
    by_cases ha : a = p
    · subst ha
      have hcnt : l.count a = 0 := by
        have := List.count_cons_self a l
        omega
      have hl : a ∉ l := List.count_eq_zero.mp hcnt
      exact ⟨[], l, by simp, by simp, hl, by simp⟩
    · have hm' : p ∈ l := by
        cases List.mem_cons.mp hm with
        | inl hh => exact absurd hh.symm ha
        | inr hh => exact hh
      have hc' : l.count p ≤ 1 := by
        rw [List.count_cons] at hc
        omega
      obtain ⟨l1, l2, h1, h2, h3, h4⟩ := ih hm' hc'
      refine ⟨a :: l1, l2, by simp [h1], ?_, h3, ?_⟩
      · simp [h2]
        exact fun hh => ha hh.symm
      · have : (a :: l).erase p = a :: l.erase p :=
          List.erase_cons_tail (by simp [ha])
        simp [this, h4]

theorem count_le_panelCount {reg : Registry} {w : WinID} {ps : List PanelID}
    (h : lookupWin reg w = some ps) (p : PanelID) :
    ps.count p ≤ panelCount reg p := by
  induction reg with
  | nil => simp [lookupWin] at h
  | cons e rest ih =>
    by_cases he : e.1 = w
    · simp [lookupWin, he] at h
      simp [panelCount, h]
    · simp [lookupWin, he] at h
      have := ih h
      simp [panelCount]
      omega

theorem panelCount_updateEntry_eq {reg : Registry} {w : WinID}
    (hl : (lookupWin reg w).isSome) (p q : PanelID) :
    panelCount (updateEntry reg w p) q =
      panelCount reg q + (if p = q then 1 else 0) := by
  induction reg with
  | nil => simp [lookupWin] at hl
  | cons e rest ih =>
    by_cases he : e.1 = w
    · simp [updateEntry, he, panelCount, List.count_append,
        List.count_singleton']
      omega
    · simp only [lookupWin, he, if_neg he] at hl
      simp [updateEntry, he, panelCount, ih hl]
      omega

theorem panelCount_addPanel_self {reg : Registry} {w : WinID} {p : PanelID}
    (h : findWindow reg p = none) : panelCount (addPanel reg w p).1 p = 1 := by
  have hp0 : panelCount reg p = 0 := findWindow_eq_none_iff.mp h
  cases hl : lookupWin reg w with
  | some ps =>
    simp only [addPanel, h, hl]
    rw [panelCount_updateEntry_eq (by simp [hl]) p p]
    simp [hp0]
  | none =>
    simp only [addPanel, h, hl]
    simp [panelCount_append, panelCount, hp0]

theorem panelCount_eraseInEntry_of_mem {reg : Registry} {w : WinID}
    {p : PanelID} {ps : List PanelID} (hl : lookupWin reg w = some ps)
    (hm : p ∈ ps) :
    panelCount (eraseInEntry reg w p) p + 1 = panelCount reg p := by
  induction reg with
  | nil => simp [lookupWin] at hl
  | cons e rest ih =>
    by_cases he : e.1 = w
    · simp [lookupWin, he] at hl
      subst hl
      have h1 : 1 ≤ e.2.count p := List.one_le_count_iff.mpr hm
      have h2 : (e.2.erase p).count p = e.2.count p - 1 :=
        List.count_erase_self p e.2
      simp [eraseInEntry, he, panelCount, h2]
      omega
    · simp [lookupWin, he] at hl
      have := ih hl
      simp [eraseInEntry, he, panelCount]
      omega

/-- C6: `removePanel(w, p)` fails with WindowNotFound when `w` has no entry
and with PanelNotFound when the entry lacks `p`, leaving the registry
unchanged in both cases; otherwise it succeeds and removes exactly the
single matching element, preserving the order of the rest (the hypothesis
`ps.count p ≤ 1`, i.e. the C1 uniqueness invariant restricted to this entry,
makes the first occurrence the single one), leaving other windows' entries
untouched.  After a successful `addPanel(w, p)`, `removePanel(w, p)` leaves
`locateWindow(p)` not-found.  The final conjunct is the spec's scenario:
add panelA and panelB to window 1, remove panelA, and window 1 holds exactly
[panelB]. -/
theorem removePanel_spec (reg : Registry) (w : WinID) (p : PanelID) :
    (lookupWin reg w = none →
      removePanel reg w p = (reg, some .windowNotFound)) ∧
    (∀ ps, lookupWin reg w = some ps → p ∉ ps →
      removePanel reg w p = (reg, some .panelNotFound)) ∧
    (∀ ps, lookupWin reg w = some ps → p ∈ ps → ps.count p ≤ 1 →
      (removePanel reg w p).2 = none ∧
      (∃ l1 l2, ps = l1 ++ p :: l2 ∧ p ∉ l1 ∧ p ∉ l2 ∧
        lookupWin (removePanel reg w p).1 w = some (l1 ++ l2)) ∧
      (∀ w', w' ≠ w →
        lookupWin (removePanel reg w p).1 w' = lookupWin reg w')) ∧
    ((addPanel reg w p).2 = none →
      findWindow (removePanel (addPanel reg w p).1 w p).1 p = none) ∧
    lookupWin (runOps [] [.add 1 "panelA", .add 1 "panelB",
      .remove 1 "panelA"]) 1 = some ["panelB"] := by
  refine ⟨fun h => by simp [removePanel, h],
    fun ps h hnp => by simp [removePanel, h, hnp], fun ps h hmp hc => ?_,
    fun hadd => ?_, by decide⟩
  · refine ⟨by simp [removePanel, h, hmp], ?_, ?_⟩
    · obtain ⟨l1, l2, h1, h2, h3, h4⟩ := exists_first_split hmp hc
      refine ⟨l1, l2, h1, h2, h3, ?_⟩
      simp only [removePanel, h, if_pos hmp]
      rw [lookupWin_eraseInEntry_self h p, h4]
    · intro w' hw'
      simp only [removePanel, h, if_pos hmp]
      exact lookupWin_eraseInEntry_other hw' p
  · have hfw : findWindow reg p = none := by
      by_contra hne
      cases hf : findWindow reg p with
      | none => exact hne hf
      | some w' => simp [addPanel, hf] at hadd
    have h1 : panelCount (addPanel reg w p).1 p = 1 :=
      panelCount_addPanel_self hfw
    have h2 := (addPanel_spec reg w p).2.1 hfw
    obtain ⟨-, hlook, -⟩ := h2
    have hmem : p ∈ (lookupWin reg w).getD [] ++ [p] := by simp
    simp only [removePanel, hlook, if_pos hmem]
    rw [findWindow_eq_none_iff]
    have := panelCount_eraseInEntry_of_mem hlook hmem
    omega

/-- Witness for C6 at concrete inputs: the two failure cases, a successful
removal from a two-panel entry, and add-then-remove leaving the panel
unlocatable. -/
theorem removePanel_spec_witness :
    (removePanel [] 1 "a" = ([], some .windowNotFound)) ∧
    (removePanel [(1, ["b"])] 1 "a" = ([(1, ["b"])], some .panelNotFound)) ∧
    ((removePanel [(1, ["a", "b"])] 1 "a").2 = none ∧
      (∃ l1 l2, ["a", "b"] = l1 ++ "a" :: l2 ∧ "a" ∉ l1 ∧ "a" ∉ l2 ∧
        lookupWin (removePanel [(1, ["a", "b"])] 1 "a").1 1 =
          some (l1 ++ l2)) ∧
      (∀ w', w' ≠ 1 →
        lookupWin (removePanel [(1, ["a", "b"])] 1 "a").1 w' =
          lookupWin [(1, ["a", "b"])] w')) ∧
    findWindow (removePanel (addPanel [] 1 "a").1 1 "a").1 "a" = none :=
  ⟨(removePanel_spec [] 1 "a").1 rfl,
    (removePanel_spec [(1, ["b"])] 1 "a").2.1 ["b"] (by decide) (by decide),
    (removePanel_spec [(1, ["a", "b"])] 1 "a").2.2.1 ["a", "b"] (by decide)
      (by decide) (by decide),
    (removePanel_spec [] 1 "a").2.2.2.1 (by decide)⟩

theorem lookupWin_eraseWin_self (reg : Registry) (w : WinID) :
    lookupWin (eraseWin reg w) w = none := by
  induction reg with
  | nil => simp [eraseWin, lookupWin]
  | cons e rest ih =>
    by_cases he : e.1 = w
    · simp [eraseWin, he, ih]
    · simp [eraseWin, he, lookupWin, ih]

theorem eraseWin_idem (reg : Registry) (w : WinID) :
    eraseWin (eraseWin reg w) w = eraseWin reg w := by
  induction reg with
  | nil => simp [eraseWin]
  | cons e rest ih =>
    by_cases he : e.1 = w
    · simp [eraseWin, he, ih]
    · simp [eraseWin, he, ih]

theorem lookupWin_eraseWin_other {w w' : WinID} (h : w' ≠ w)
    (reg : Registry) : lookupWin (eraseWin reg w) w' = lookupWin reg w' := by
  induction reg with
  | nil => simp [eraseWin]
  | cons e rest ih =>
    by_cases he : e.1 = w
    · have hne : e.1 ≠ w' := fun hh => h (hh ▸ he ▸ rfl)
      simp [eraseWin, he, lookupWin, hne, Ne.symm h, ih]
    · simp [eraseWin, he, lookupWin, ih]

theorem panelCount_eraseWin_add {reg : Registry} {w : WinID}
    {ps : List PanelID} (h : lookupWin reg w = some ps) (p : PanelID) :
    panelCount (eraseWin reg w) p + ps.count p ≤ panelCount reg p := by
  induction reg with
  | nil => simp [lookupWin] at h
  | cons e rest ih =>
    by_cases he : e.1 = w
    · simp [lookupWin, he] at h
      have := panelCount_eraseWin_le rest w p
      simp [eraseWin, he, panelCount, h]
      omega
    · simp [lookupWin, he] at h
      have := ih h
      simp [eraseWin, he, panelCount]
      omega

/-- C7: `onWindowClosed(w)` deletes `w`'s entry (afterwards `w` has no
entry), never fails and is idempotent, leaves other windows' entries
unchanged, and — under the C1 uniqueness invariant restricted to `p`, which
holds in every reachable state — leaves `locateWindow(p)` not-found for
every `p` previously in `w`'s sequence. -/
theorem onWindowClosed_spec (reg : Registry) (w : WinID) :
    lookupWin (onWindowClosed reg w) w = none ∧
    onWindowClosed (onWindowClosed reg w) w = onWindowClosed reg w ∧
    (∀ w', w' ≠ w →
      lookupWin (onWindowClosed reg w) w' = lookupWin reg w') ∧
    (∀ ps p, lookupWin reg w = some ps → p ∈ ps → panelCount reg p ≤ 1 →
      findWindow (onWindowClosed reg w) p = none) := by
  refine ⟨lookupWin_eraseWin_self reg w, eraseWin_idem reg w,
    fun w' hw' => lookupWin_eraseWin_other hw' reg, fun ps p hl hm hc => ?_⟩
  have h1 : 1 ≤ ps.count p := List.one_le_count_iff.mpr hm
  have h2 := panelCount_eraseWin_add hl p
  rw [findWindow_eq_none_iff]
  simp only [onWindowClosed] at *
  omega

/-- Witness for C7 at a concrete registry: closing window 1 removes its
entry and leaves its former panel unlocatable while window 2 is intact. -/
theorem onWindowClosed_spec_witness :
    lookupWin (onWindowClosed [(1, ["a"]), (2, ["b"])] 1) 1 = none ∧
    onWindowClosed (onWindowClosed [(1, ["a"]), (2, ["b"])] 1) 1 =
      onWindowClosed [(1, ["a"]), (2, ["b"])] 1 ∧
    (∀ w', w' ≠ 1 →
      lookupWin (onWindowClosed [(1, ["a"]), (2, ["b"])] 1) w' =
        lookupWin [(1, ["a"]), (2, ["b"])] w') ∧
    findWindow (onWindowClosed [(1, ["a"]), (2, ["b"])] 1) "a" = none := by
  obtain ⟨h1, h2, h3, h4⟩ := onWindowClosed_spec [(1, ["a"]), (2, ["b"])] 1
  exact ⟨h1, h2, h3, h4 ["a"] "a" (by decide) (by decide) (by decide)⟩

/-! ## Dispatcher lemmas -/

theorem popReplyAndTimeout_concat_fn_num (args : List JVal) (cb : Nat)
    (t : Int) :
    popReplyAndTimeout (args ++ [.fn cb, .num t]) = (some ⟨cb, t⟩, args) := by
  have h2 : args ++ [JVal.fn cb, JVal.num t] =
      (args ++ [JVal.fn cb]) ++ [JVal.num t] := by simp
  rw [popReplyAndTimeout, h2, List.getLast?_concat, List.dropLast_concat,
    List.getLast?_concat, List.dropLast_concat]

theorem popReplyAndTimeout_concat_opt (args : List JVal) (sid : Option Nat)
    (wfr : Bool) (t : Option Int) :
    popReplyAndTimeout (args ++ [.opt sid wfr t]) =
      (none, args ++ [.opt sid wfr t]) := by
  rw [popReplyAndTimeout, List.getLast?_concat]

theorem popOptions_concat_opt (args : List JVal) (sid : Option Nat)
    (wfr : Bool) (t : Option Int) :
    popOptions (args ++ [.opt sid wfr t]) = (some ⟨sid, wfr, t⟩, args) := by
  rw [popOptions, List.getLast?_concat, List.dropLast_concat]

/-- C2: `send` to a panel owned by no window: if a reply callback was popped
from the trailing arguments, it is invoked exactly once, synchronously
(`calls` records the synchronous invocations of the call itself), with the
NoPanel error carrying the panel id and message, and nothing is transmitted,
no session opened, nothing logged; if no reply callback was supplied the
call has no observable effect at all. -/
theorem send_no_owner_spec (reg : Registry) (panelID : String)
    (message : JVal) (args : List JVal) (nextSid : Nat)
    (h : findWindow reg panelID = none) :
    (∀ rt, (popReplyAndTimeout args).1 = some rt →
      send reg panelID message args nextSid =
        { Effect.empty with
          calls := [(rt.reply, [errorNoPanel panelID message])] }) ∧
    ((popReplyAndTimeout args).1 = none →
      send reg panelID message args nextSid = Effect.empty) := by
  cases hp : popReplyAndTimeout args with
  | mk o rest =>
    constructor
    · intro rt hrt
      simp at hrt
      subst hrt
      simp [send, h, hp]
    · intro hn
      simp at hn
      subst hn
      simp [send, h, hp]

/-- Witness for C2: a send to an empty registry with a trailing callback
invokes it once with the NoPanel error; without a callback it does
nothing. -/
theorem send_no_owner_spec_witness :
    (send [] "p" (.str "m") [.fn 3] 0 =
      { Effect.empty with calls := [(3, [errorNoPanel "p" (.str "m")])] }) ∧
    (send [] "p" (.str "m") [] 0 = Effect.empty) :=
  ⟨(send_no_owner_spec [] "p" (.str "m") [.fn 3] 0 (by decide)).1
      ⟨3, 5000⟩ (by decide),
    (send_no_owner_spec [] "p" (.str "m") [] 0 (by decide)).2 (by decide)⟩

/-- C3: `send(p, msg, ...args, replyCallback, timeout)` with string `msg`
and `p` owned by window `w` opens exactly one session, owned by the
coordinating-side tag `p + "@main"` and holding the reply callback and
timeout, transmits exactly one message to `w` carrying the panel id, the
message, the remaining arguments, and an option with the session id and the
wait-for-reply flag, and returns that session id. -/
theorem send_with_reply_spec (reg : Registry) (p s : String)
    (args : List JVal) (cb : Nat) (t : Int) (w : WinID) (nextSid : Nat)
    (h : findWindow reg p = some w) :
    send reg p (.str s) (args ++ [.fn cb, .num t]) nextSid =
      { msgs := [⟨.win w, main2panelChannel,
          .str p :: .str s :: (args ++ [.opt (some nextSid) true (some t)])⟩],
        calls := [],
        sessions := [⟨nextSid, .str s, p ++ "@main", .cb cb, some t⟩],
        logs := [],
        ret := some nextSid } := by
  simp [send, h, sendToPanel, JVal.isStr, popReplyAndTimeout_concat_fn_num]

/-- Witness for C3 at concrete inputs. -/
theorem send_with_reply_spec_witness :
    send [(1, ["p"])] "p" (.str "m") ([.num 9] ++ [.fn 3, .num 700]) 4 =
      { msgs := [⟨.win 1, main2panelChannel,
          .str "p" :: .str "m" ::
            ([.num 9] ++ [.opt (some 4) true (some 700)])⟩],
        calls := [],
        sessions := [⟨4, .str "m", "p" ++ "@main", .cb 3, some 700⟩],
        logs := [],
        ret := some 4 } :=
  send_with_reply_spec [(1, ["p"])] "p" "m" [.num 9] 3 700 1 4 (by decide)

/-- C8 counterexample: the claim requires every send with a non-string
message to be logged as rejected, but when no window owns the panel the
lookup short-circuits first: this concrete non-string send logs nothing
(and transmits nothing), so "the send is ... logged" is false. -/
theorem send_nonstring_unlogged_counterexample :
    (send [] "p" (.num 0) [] 0).logs = [] ∧
    (send [] "p" (.num 0) [] 0).msgs = [] := by decide

/-- C8 (amended): a send whose message is not a string never transmits a
message, opens no session and returns undefined; it is rejected with a log
precisely when some window owns the panel — on the no-owner path the
non-string message is not logged. -/
theorem send_nonstring_spec (reg : Registry) (panelID : String)
    (message : JVal) (args : List JVal) (nextSid : Nat)
    (hm : message.isStr = false) :
    (send reg panelID message args nextSid).msgs = [] ∧
    (send reg panelID message args nextSid).sessions = [] ∧
    (send reg panelID message args nextSid).ret = none ∧
    (∀ w, findWindow reg panelID = some w →
      (send reg panelID message args nextSid).logs =
        [.mustBeString panelID message]) ∧
    (findWindow reg panelID = none →
      (send reg panelID message args nextSid).logs = []) := by
  cases hf : findWindow reg panelID with
  | none =>
    cases hp : popReplyAndTimeout args with
    | mk o rest => cases o <;> simp [send, hf, hp, Effect.empty]
  | some w => simp [send, hf, sendToPanel, hm, Effect.empty]

/-- Witness for the amended C8 at concrete inputs, covering both the owned
(logged) and unowned (unlogged) paths. -/
theorem send_nonstring_spec_witness :
    ((send [(1, ["p"])] "p" (.num 0) [] 0).msgs = [] ∧
      (send [(1, ["p"])] "p" (.num 0) [] 0).sessions = [] ∧
      (send [(1, ["p"])] "p" (.num 0) [] 0).ret = none ∧
      (∀ w, findWindow [(1, ["p"])] "p" = some w →
        (send [(1, ["p"])] "p" (.num 0) [] 0).logs =
          [.mustBeString "p" (.num 0)]) ∧
      (findWindow [(1, ["p"])] "p" = none →
        (send [(1, ["p"])] "p" (.num 0) [] 0).logs = [])) ∧
    ((send [] "q" (.num 0) [] 0).msgs = [] ∧
      (send [] "q" (.num 0) [] 0).sessions = [] ∧
      (send [] "q" (.num 0) [] 0).ret = none ∧
      (∀ w, findWindow [] "q" = some w →
        (send [] "q" (.num 0) [] 0).logs = [.mustBeString "q" (.num 0)]) ∧
      (findWindow [] "q" = none → (send [] "q" (.num 0) [] 0).logs = [])) :=
  ⟨send_nonstring_spec [(1, ["p"])] "p" (.num 0) [] 0 rfl,
    send_nonstring_spec [] "q" (.num 0) [] 0 rfl⟩

/-- C9 counterexample: a send with a reply callback supplied that hits the
MalformedMessage error (non-string message, panel owned by window 1): the
error is logged but the callback is never invoked, so this send error is
delivered zero times, not once, to the supplied reply callback. -/
theorem send_error_not_delivered_counterexample :
    (popReplyAndTimeout [.fn 7]).1 = some ⟨7, 5000⟩ ∧
    (send [(1, ["p"])] "p" (.num 0) [.fn 7] 0).logs =
      [.mustBeString "p" (.num 0)] ∧
    (send [(1, ["p"])] "p" (.num 0) [.fn 7] 0).calls = [] := by decide

/-- C9 (amended): with a reply callback supplied, a NoPanel error is
delivered exactly once to that callback as a structured error value, but a
MalformedMessage error is not delivered to the callback — it is only
logged, and the callback is never invoked on that path. -/
theorem send_error_delivery_spec (reg : Registry) (p : String)
    (message : JVal) (args : List JVal) (rt : ReplyTimeout) (nextSid : Nat)
    (hpop : (popReplyAndTimeout args).1 = some rt) :
    (findWindow reg p = none →
      (send reg p message args nextSid).calls =
        [(rt.reply, [errorNoPanel p message])]) ∧
    (∀ w, findWindow reg p = some w → message.isStr = false →
      (send reg p message args nextSid).calls = [] ∧
      (send reg p message args nextSid).logs =
        [.mustBeString p message]) := by
  cases hp : popReplyAndTimeout args with
  | mk o rest =>
    rw [hp] at hpop
    simp at hpop
    subst hpop
    constructor
    · intro hf
      simp [send, hf, hp]
    · intro w hf hm
      simp [send, hf, sendToPanel, hm, Effect.empty]

/-- Witness for the amended C9 at concrete inputs: the NoPanel error is
delivered once; the MalformedMessage error on the owned path is only
logged. -/
theorem send_error_delivery_spec_witness :
    ((findWindow [] "p" = none →
      (send [] "p" (.str "m") [.fn 7] 0).calls =
        [(7, [errorNoPanel "p" (.str "m")])]) ∧
      (∀ w, findWindow [] "p" = some w → (JVal.str "m").isStr = false →
        (send [] "p" (.str "m") [.fn 7] 0).calls = [] ∧
        (send [] "p" (.str "m") [.fn 7] 0).logs =
          [.mustBeString "p" (.str "m")])) ∧
    ((findWindow [(1, ["p"])] "p" = none →
      (send [(1, ["p"])] "p" (.num 0) [.fn 7] 0).calls =
        [(7, [errorNoPanel "p" (.num 0)])]) ∧
      (∀ w, findWindow [(1, ["p"])] "p" = some w →
        (JVal.num 0).isStr = false →
        (send [(1, ["p"])] "p" (.num 0) [.fn 7] 0).calls = [] ∧
        (send [(1, ["p"])] "p" (.num 0) [.fn 7] 0).logs =
          [.mustBeString "p" (.num 0)])) :=
  ⟨send_error_delivery_spec [] "p" (.str "m") [.fn 7] ⟨7, 5000⟩ 0 (by decide),
    send_error_delivery_spec [(1, ["p"])] "p" (.num 0) [.fn 7] ⟨7, 5000⟩ 0
      (by decide)⟩

/-- C10: in `panel.send` the owning-window lookup runs before
`_sendToPanel`'s string check, so a non-string message to an unowned panel
with a reply callback supplied invokes the callback exactly once with the
NoPanel error carrying the panel id and the non-string message — nothing is
logged as malformed and nothing is transmitted. -/
theorem send_lookup_before_typecheck (reg : Registry) (p : String)
    (message : JVal) (args : List JVal) (rt : ReplyTimeout) (nextSid : Nat)
    (h : findWindow reg p = none) (hm : message.isStr = false)
    (hpop : (popReplyAndTimeout args).1 = some rt) :
    send reg p message args nextSid =
      { Effect.empty with
        calls := [(rt.reply, [errorNoPanel p message])] } := by
  cases hp : popReplyAndTimeout args with
  | mk o rest =>
    rw [hp] at hpop
    simp at hpop
    subst hpop
    simp [send, h, hp]

/-- Witness for C10 at concrete inputs: a non-string message to an unowned
panel reaches the supplied callback as a NoPanel error, unlogged. -/
theorem send_lookup_before_typecheck_witness :
    send [(1, ["q"])] "p" (.num 0) [.fn 7] 0 =
      { Effect.empty with calls := [(7, [errorNoPanel "p" (.num 0)])] } :=
  send_lookup_before_typecheck [(1, ["q"])] "p" (.num 0) [.fn 7] ⟨7, 5000⟩ 0
    (by decide) rfl (by decide)

/-- C4: a renderer-to-panel relay whose trailing option requests a reply
(carrying the original caller's session id) opens exactly one session at
the coordinating process, whose stored reply callback is the forwarding
closure over the captured sender and the *original* session id — not the
freshly assigned `nextSid`, which is arbitrary here.  When the Session
Tracker later invokes that callback with reply arguments and the sender is
still alive, exactly one reply message is sent to the sender's reply
channel, tagged with the original session id; when the sender has been
destroyed, the invocation produces nothing at all. -/
theorem relay_reply_forwarding (reg : Registry) (sender : Nat) (p : String)
    (message : JVal) (rest : List JVal) (origSid : Option Nat)
    (t : Option Int) (w : WinID) (nextSid : Nat)
    (h : findWindow reg p = some w) :
    (renderer2panelOpts reg sender p message
        (rest ++ [.opt origSid true t]) nextSid).sessions =
      [⟨nextSid, message, p ++ "@main", .forward sender origSid, t⟩] ∧
    (∀ alive replyArgs, alive sender = true →
      runReplyFn alive (.forward sender origSid) replyArgs =
        ([⟨.sender sender, replyChannel,
          replyArgs ++ [.opt origSid false none]⟩], [])) ∧
    (∀ alive replyArgs, alive sender = false →
      runReplyFn alive (.forward sender origSid) replyArgs = ([], [])) := by
  refine ⟨?_, fun alive ra ha => by simp [runReplyFn, ha],
    fun alive ra ha => by simp [runReplyFn, ha]⟩
  have hne : (rest ++ [JVal.opt origSid true t]).isEmpty = false := by simp
  simp only [renderer2panelOpts, hne, Bool.false_eq_true, if_false,
    popOptions_concat_opt]
  cases hm : message.isStr with
  | false => simp [send, h, sendToPanel, hm, Effect.empty]
  | true =>
    simp [send, h, sendToPanel, hm, popReplyAndTimeout_concat_opt,
      Effect.empty]

/-- Witness for C4 at concrete inputs: the relay stores the forwarding
callback with the original session id 42 even though the fresh session id
is 7, and invoking it forwards once when alive, nothing when destroyed. -/
theorem relay_reply_forwarding_witness :
    (renderer2panelOpts [(1, ["p"])] 5 "p" (.str "m")
        ([.num 9] ++ [.opt (some 42) true (some 1000)]) 7).sessions =
      [⟨7, .str "m", "p" ++ "@main", .forward 5 (some 42), some 1000⟩] ∧
    runReplyFn (fun _ => true) (.forward 5 (some 42)) [.str "ok"] =
      ([⟨.sender 5, replyChannel,
        [.str "ok"] ++ [.opt (some 42) false none]⟩], []) ∧
    runReplyFn (fun _ => false) (.forward 5 (some 42)) [.str "ok"] =
      ([], []) :=
  ⟨(relay_reply_forwarding [(1, ["p"])] 5 "p" (.str "m") [.num 9] (some 42)
      (some 1000) 1 7 (by decide)).1,
    (relay_reply_forwarding [(1, ["p"])] 5 "p" (.str "m") [.num 9] (some 42)
      (some 1000) 1 7 (by decide)).2.1 (fun _ => true) [.str "ok"] rfl,
    (relay_reply_forwarding [(1, ["p"])] 5 "p" (.str "m") [.num 9] (some 42)
      (some 1000) 1 7 (by decide)).2.2 (fun _ => false) [.str "ok"] rfl⟩

end ElectronPanel
